import Mathlib

/-
Shallow embedding of the GatherHub real-time subsystem:
consumers (base/event/voting/tasks), the voting and event Django signals,
and the HTTP permission classes the claims compare against.

Sources embedded:
  backend/gatherhub/consumers/base.py    (BaseConsumer.connect / receive / disconnect / send_error)
  backend/gatherhub/consumers/voting.py  (VotingConsumer.check_event_access / add_vote / remove_vote)
  backend/gatherhub/consumers/tasks.py   (TasksConsumer.create_task / update_task / delete_task)
  backend/gatherhub/consumers/event.py   (EventConsumer.check_event_access / handle_ping)
  apps/events/signals.py                 (event_updated_signal)
  apps/voting/signals.py                 (vote_added_signal / vote_removed_signal)
  apps/voting/permissions.py             (CanVoteOnTimeslot.has_object_permission)
  apps/tasks/permissions.py              (IsEventCreatorForTaskCreation.has_permission)
-/

namespace GatherHub

/-- Event.STATUS_CHOICES in apps/events/models.py: 'draft' or 'locked'. -/
inductive EventStatus
  | draft
  | locked
deriving DecidableEq, Repr

/-- Row of apps/events/models.py Event (fields the subsystem reads). -/
structure Event where
  slug : String
  title : String
  status : EventStatus
  createdBy : Nat
deriving DecidableEq, Repr

/-- Row of apps/events/models.py TimeSlot; datetime as an integer timestamp. -/
structure TimeSlot where
  id : Nat
  eventSlug : String
  datetime : Int
deriving DecidableEq, Repr

/-- Row of apps/voting/models.py Vote. -/
structure Vote where
  userId : Nat
  timeslotId : Nat
deriving DecidableEq, Repr

/-- Row of apps/tasks/models.py Task (fields the subsystem reads/writes). -/
structure Task where
  id : Nat
  eventSlug : String
  title : String
  status : String
  assignedTo : Option Nat
deriving DecidableEq, Repr

/-- The database state the consumers and signals read and mutate. -/
structure Store where
  events : List Event
  timeslots : List TimeSlot
  votes : List Vote
  tasks : List Task
  users : List Nat
deriving DecidableEq, Repr

/-- Event.objects.get(slug=...) — some row or DoesNotExist. -/
def findEvent (s : Store) (slug : String) : Option Event :=
  s.events.find? (fun e => e.slug == slug)

/-- TimeSlot.objects.get(id=..., event__slug=...). -/
def findTimeslot (s : Store) (tid : Nat) (slug : String) : Option TimeSlot :=
  s.timeslots.find? (fun t => t.id == tid && t.eventSlug == slug)

/-- Vote.objects.filter(user=..., timeslot=...).exists(). -/
def voteExists (s : Store) (uid tid : Nat) : Bool :=
  s.votes.any (fun v => v.userId == uid && v.timeslotId == tid)

/-- Vote.objects.filter(timeslot=...).count(). -/
def voteCount (s : Store) (tid : Nat) : Nat :=
  (s.votes.filter (fun v => v.timeslotId == tid)).length

/-- Task.objects.get(id=..., event__slug=...). -/
def findTask (s : Store) (tid : Nat) (slug : String) : Option Task :=
  s.tasks.find? (fun t => t.id == tid && t.eventSlug == slug)

/-- CustomUser.objects.get(id=...) succeeds. -/
def userExists (s : Store) (uid : Nat) : Bool :=
  s.users.contains uid

/-- user.votes.filter(timeslot__event=event).exists() for the event slug. -/
def hasVotedOnEvent (s : Store) (uid : Nat) (slug : String) : Bool :=
  s.votes.any (fun v => v.userId == uid &&
    s.timeslots.any (fun t => t.id == v.timeslotId && t.eventSlug == slug))

/-- Room name of EventConsumer.get_room_group_name. -/
def generalRoom (slug : String) : String := "event_" ++ slug

/-- Room name of VotingConsumer.get_room_group_name. -/
def votingRoom (slug : String) : String := "event_" ++ slug ++ "_voting"

/-- Room name of TasksConsumer.get_room_group_name. -/
def tasksRoom (slug : String) : String := "event_" ++ slug ++ "_tasks"

/-- Substring occurrence over character lists. -/
def containsSub (needle : List Char) : List Char → Bool
  | [] => needle.isEmpty
  | c :: t => needle.isPrefixOf (c :: t) || containsSub needle t

/-- Python substring test: the string 'voting' occurs in room. -/
def containsVoting (room : String) : Bool :=
  containsSub "voting".toList room.toList

/-- One channel_layer.group_send call: target room, the channel handler
type passed in the group message, and the inner message's type and action. -/
structure Publish where
  room : String
  handlerType : String
  msgType : String
  action : String
deriving DecidableEq, Repr

/-- apps/voting/signals.py vote_added_signal: fired on Vote post_save with
created=True; publishes the vote_update envelope to the voting room
(handler vote_update) and to the general room (handler event_update). -/
def vote_added_signal (slug : String) : List Publish :=
  [ { room := votingRoom slug, handlerType := "vote_update",
      msgType := "vote_update", action := "added" },
    { room := generalRoom slug, handlerType := "event_update",
      msgType := "vote_update", action := "added" } ]

/-- apps/voting/signals.py vote_removed_signal: fired on Vote post_delete;
same two rooms, action removed. -/
def vote_removed_signal (slug : String) : List Publish :=
  [ { room := votingRoom slug, handlerType := "vote_update",
      msgType := "vote_update", action := "removed" },
    { room := generalRoom slug, handlerType := "event_update",
      msgType := "vote_update", action := "removed" } ]

/-- apps/events/signals.py event_updated_signal: fired on Event post_save.
Only updates (not creation) broadcast; the inner message type is
event_update with action 'locked' when the saved status is locked, else
'modified'; it is sent to the general, voting and tasks rooms, with group
handler type event_locked for any room whose name contains 'voting' and
event_update otherwise. -/
def event_updated_signal (ev : Event) (created : Bool) : List Publish :=
  if created then []
  else
    let action := if ev.status = EventStatus.locked then "locked" else "modified"
    let rooms := [generalRoom ev.slug, votingRoom ev.slug, tasksRoom ev.slug]
    rooms.map (fun room =>
      { room := room
        handlerType := if containsVoting room then "event_locked" else "event_update"
        msgType := "event_update"
        action := action })

/-- Payload VotingConsumer.add_vote / remove_vote return on success. -/
structure VoteResult where
  timeslot_id : Nat
  userId : Nat
  new_vote_count : Nat
deriving DecidableEq, Repr

/-- VotingConsumer.add_vote: looks up the timeslot by (id, event slug),
rejects unless the parent event's status is 'draft', then
Vote.objects.get_or_create; only a fresh creation returns a result and
fires vote_added_signal (publish list); a duplicate returns none with no
publish. The missing-event branch is unreachable under FK integrity.
There is no check on the timeslot's datetime. -/
def add_vote (s : Store) (slug : String) (uid tid : Nat) :
    Store × Option VoteResult × List Publish :=
  match findTimeslot s tid slug with
  | none => (s, none, [])
  | some ts =>
    match findEvent s ts.eventSlug with
    | none => (s, none, [])
    | some ev =>
      if ev.status ≠ EventStatus.draft then (s, none, [])
      else if voteExists s uid tid then (s, none, [])
      else
        let s2 : Store := { s with votes := s.votes ++ [⟨uid, tid⟩] }
        (s2, some ⟨tid, uid, voteCount s2 tid⟩, vote_added_signal slug)

/-- VotingConsumer.remove_vote: same lookups and draft check; deletes the
user's vote if present, which fires vote_removed_signal. -/
def remove_vote (s : Store) (slug : String) (uid tid : Nat) :
    Store × Option VoteResult × List Publish :=
  match findTimeslot s tid slug with
  | none => (s, none, [])
  | some ts =>
    match findEvent s ts.eventSlug with
    | none => (s, none, [])
    | some ev =>
      if ev.status ≠ EventStatus.draft then (s, none, [])
      else if !voteExists s uid tid then (s, none, [])
      else
        let s2 : Store :=
          { s with votes := s.votes.filter (fun v => !(v.userId == uid && v.timeslotId == tid)) }
        (s2, some ⟨tid, uid, voteCount s2 tid⟩, vote_removed_signal slug)

/-- Payload TasksConsumer.create_task returns on success. -/
structure TaskCreated where
  taskId : Nat
  title : String
  status : String
  createdBy : Nat
deriving DecidableEq, Repr

/-- Fresh primary key for Task.objects.create. -/
def nextTaskId (s : Store) : Nat :=
  (s.tasks.map Task.id).foldr max 0 + 1

/-- TasksConsumer.create_task: looks the event up by slug and creates the
task with status 'todo'. No authorization check and no event-status check
is performed; only a missing event yields none. -/
def create_task (s : Store) (slug : String) (uid : Nat) (title : String) :
    Store × Option TaskCreated :=
  match findEvent s slug with
  | none => (s, none)
  | some _ =>
    let t : Task := ⟨nextTaskId s, slug, title, "todo", none⟩
    ({ s with tasks := s.tasks ++ [t] }, some ⟨t.id, title, "todo", uid⟩)

/-- The 'updates' dict of a socket task_update message. A field is none
when the key is absent; assigned_to_id distinguishes key absent (none),
falsy value None/0 (some none / some (some 0)) and a real id. -/
structure Updates where
  status : Option String := none
  assigned_to_id : Option (Option Nat) := none
  title : Option String := none
deriving DecidableEq, Repr

/-- The 'changes' dict TasksConsumer.update_task builds: statusChange and
titleChange hold (from, to) when that key was written; assignedChange
records whether the assigned_to key was written. -/
structure TaskChanges where
  statusChange : Option (String × String) := none
  assignedChange : Bool := false
  titleChange : Option (String × String) := none
deriving DecidableEq, Repr

/-- Payload TasksConsumer.update_task returns on success. -/
structure TaskUpdated where
  task : Task
  changes : TaskChanges
  changedBy : Nat
deriving DecidableEq, Repr

/-- The assigned_to_id step of update_task: key absent leaves the task
alone; a truthy id must resolve to an existing user (else
CustomUser.DoesNotExist makes the whole update return none); a falsy
value unassigns. -/
def applyAssigned (s : Store) (task : Task) (a : Option (Option Nat)) :
    Option (Task × Bool) :=
  match a with
  | none => some (task, false)
  | some none => some ({ task with assignedTo := none }, true)
  | some (some aid) =>
    if aid ≠ 0 then
      if userExists s aid then some ({ task with assignedTo := some aid }, true)
      else none
    else some ({ task with assignedTo := none }, true)

/-- The status step of update_task: the change is applied only when the
requested value is one of todo/doing/done; any other value is silently
skipped, with no entry in the changes dict and no error. -/
def applyStatus (u : Updates) (task : Task) : Task × Option (String × String) :=
  match u.status with
  | some v =>
    if v == "todo" || v == "doing" || v == "done"
    then ({ task with status := v }, some (task.status, v))
    else (task, none)
  | none => (task, none)

/-- The title step of update_task: applied when the key is present and
the stripped title is nonempty. -/
def applyTitle (u : Updates) (task : Task) : Task × Option (String × String) :=
  match u.title with
  | some t =>
    if t.trim != ""
    then ({ task with title := t.trim }, some (task.title, t.trim))
    else (task, none)
  | none => (task, none)

/-- task.save(): replace the row matched by (id, event slug). -/
def saveTask (s : Store) (tid : Nat) (slug : String) (task3 : Task) : Store :=
  { s with tasks := s.tasks.map (fun t => if t.id == tid && t.eventSlug == slug then task3 else t) }

/-- TasksConsumer.update_task: looks the task up by (id, event slug);
applies the status step, the assignment step (whose user lookup failure
aborts the whole update) and the title step; saves the task and reports
the accumulated changes. -/
def update_task (s : Store) (slug : String) (uid tid : Nat) (u : Updates) :
    Store × Option TaskUpdated :=
  match findTask s tid slug with
  | none => (s, none)
  | some task0 =>
    let (task1, ch1) := applyStatus u task0
    match applyAssigned s task1 u.assigned_to_id with
    | none => (s, none)
    | some (task2, chA) =>
      let (task3, ch3) := applyTitle u task2
      (saveTask s tid slug task3, some ⟨task3, ⟨ch1, chA, ch3⟩, uid⟩)

/-- TasksConsumer.delete_task: looks the task up and deletes it, returning
the pre-deletion snapshot. -/
def delete_task (s : Store) (slug : String) (tid : Nat) :
    Store × Option Task :=
  match findTask s tid slug with
  | none => (s, none)
  | some task =>
    ({ s with tasks := s.tasks.filter (fun t => !(t.id == tid && t.eventSlug == slug)) }, some task)

/-- apps/voting/permissions.py CanVoteOnTimeslot.has_object_permission on
a TimeSlot obj: reject when the timeslot is not strictly in the future,
when the parent event is locked, when the user created the event, and (for
POST/PUT) when the user already voted for the timeslot. ev stands for
timeslot.event. -/
def canVoteOnTimeslot (s : Store) (now : Int) (uid : Nat) (ts : TimeSlot)
    (ev : Event) (isPost : Bool) : Bool :=
  if ts.datetime ≤ now then false
  else if ev.status = EventStatus.locked then false
  else if ev.createdBy = uid then false
  else if isPost && voteExists s uid ts.id then false
  else true

/-- apps/tasks/permissions.py IsEventCreatorForTaskCreation.has_permission
for POST via the event-slug endpoint: the user must be the event creator
or have voted on a timeslot of the event. -/
def isEventCreatorForTaskCreation (s : Store) (uid : Nat) (slug : String) : Bool :=
  match findEvent s slug with
  | none => false
  | some ev => ev.createdBy = uid || hasVotedOnEvent s uid slug

/-- The three consumer subclasses wired in gatherhub/routing.py. -/
inductive ConsumerKind
  | general
  | voting
  | tasks
deriving DecidableEq, Repr

/-- check_event_access of each consumer: all require the event to exist;
EventConsumer and TasksConsumer then allow any authenticated user, while
VotingConsumer additionally requires status 'draft'. -/
def check_event_access (k : ConsumerKind) (s : Store) (slug : String) : Bool :=
  match findEvent s slug with
  | none => false
  | some ev =>
    match k with
    | .general => true
    | .voting => ev.status = EventStatus.draft
    | .tasks => true

/-- get_room_group_name of each consumer. -/
def get_room_group_name (k : ConsumerKind) (slug : String) : String :=
  match k with
  | .general => generalRoom slug
  | .voting => votingRoom slug
  | .tasks => tasksRoom slug

/-- Outcome of BaseConsumer.connect: either close(code) before accepting,
or accept and remember the joined room, user and slug. -/
inductive ConnectOutcome
  | closed (code : Nat)
  | accepted (room : String) (userId : Nat) (slug : String)
deriving DecidableEq, Repr

/-- One send_json payload. error carries the message and the details field,
which send_error includes only when truthy. -/
inductive OutMsg
  | connection_established (room : String) (userId : Nat) (slug : String)
  | errorOut (message : String) (details : Option String)
  | vote_added (r : VoteResult)
  | vote_removed (r : VoteResult)
  | task_created (r : TaskCreated)
  | task_updated (r : TaskUpdated)
  | task_deleted (t : Task)
  | pong
deriving DecidableEq, Repr

/-- BaseConsumer.send_error: the details key is added only when the value
is truthy, so a None or empty-string details is dropped. -/
def send_error (message : String) (details : Option String) : OutMsg :=
  OutMsg.errorOut message
    (match details with
     | some d => if d == "" then none else some d
     | none => none)

/-- BaseConsumer.connect. token is the result of get_token (query string
or subprotocol); auth models authenticate_token, which catches every
exception internally and yields none for any invalid token; slugOpt is
the event_slug URL kwarg. dbOk models whether the database behind
check_event_access is reachable: an unexpected exception there escapes to
the outer try and closes with 4000. Checks run in order with early exit;
on success the consumer joins its room, accepts, and sends the
connection_established envelope with room, user id and event slug. -/
def connect (k : ConsumerKind) (s : Store) (dbOk : Bool)
    (token : Option String) (auth : String → Option Nat)
    (slugOpt : Option String) : ConnectOutcome × List OutMsg :=
  match token with
  | none => (.closed 4001, [])
  | some t =>
    match auth t with
    | none => (.closed 4001, [])
    | some uid =>
      match slugOpt with
      | none => (.closed 4002, [])
      | some slug =>
        if !dbOk then (.closed 4000, [])
        else if !check_event_access k s slug then (.closed 4003, [])
        else
          let room := get_room_group_name k slug
          (.accepted room uid slug, [OutMsg.connection_established room uid slug])

/-- Channel-layer group membership: room name to the channel names joined
to it. -/
abbrev Registry := List (String × List String)

/-- channel_layer.group_discard: remove the channel from the room's set;
absent members are ignored. -/
def group_discard (reg : Registry) (room ch : String) : Registry :=
  reg.map (fun e => if e.1 == room then (e.1, e.2.filter (fun c => c != ch)) else e)

/-- BaseConsumer.disconnect: only when a room was joined (room_group_name
set) and a channel layer exists does it discard the channel from the
group; otherwise it does nothing. -/
def disconnect (reg : Registry) (layerOk : Bool)
    (roomGroupName : Option String) (ch : String) : Registry :=
  match roomGroupName with
  | none => reg
  | some room => if layerOk then group_discard reg room ch else reg

/-- A parsed inbound JSON object: data.get of each field the handlers
read. msgType none models a missing type key (data.get gives None). -/
structure MsgData where
  msgType : Option String := none
  timeslot_id : Option Nat := none
  title : Option String := none
  task_id : Option Nat := none
  updates : Updates := {}
deriving DecidableEq, Repr

/-- An inbound frame as BaseConsumer.receive sees it: no text payload,
text that json.loads rejects, a JSON value that is not an object (so
data.get raises, caught by the generic handler), or an object. -/
inductive Frame
  | textNone
  | invalidJson
  | nonObject
  | obj (d : MsgData)
deriving DecidableEq, Repr

/-- Python truthiness of an integer id field: None and 0 are falsy. -/
def truthyNat (a : Option Nat) : Option Nat :=
  match a with
  | some n => if n == 0 then none else some n
  | none => none

/-- Which handle_ methods exist on each consumer class (dynamic hasattr
dispatch in BaseConsumer.receive). -/
def hasHandler (k : ConsumerKind) (t : String) : Bool :=
  match k with
  | .general => t == "ping"
  | .voting => t == "vote_add" || t == "vote_remove"
  | .tasks => t == "task_create" || t == "task_update" || t == "task_delete"

/-- VotingConsumer.handle_vote_add: a falsy timeslot_id is answered with
an error; otherwise add_vote decides between a vote_added payload and a
generic failure error. -/
def handle_vote_add (s : Store) (slug : String) (uid : Nat) (d : MsgData) :
    Store × List OutMsg × List Publish :=
  match truthyNat d.timeslot_id with
  | none => (s, [send_error "Missing timeslot_id" none], [])
  | some tid =>
    match add_vote s slug uid tid with
    | (s2, some r, pubs) => (s2, [OutMsg.vote_added r], pubs)
    | (s2, none, pubs) => (s2, [send_error "Failed to add vote" none], pubs)

/-- VotingConsumer.handle_vote_remove. -/
def handle_vote_remove (s : Store) (slug : String) (uid : Nat) (d : MsgData) :
    Store × List OutMsg × List Publish :=
  match truthyNat d.timeslot_id with
  | none => (s, [send_error "Missing timeslot_id" none], [])
  | some tid =>
    match remove_vote s slug uid tid with
    | (s2, some r, pubs) => (s2, [OutMsg.vote_removed r], pubs)
    | (s2, none, pubs) => (s2, [send_error "Failed to remove vote" none], pubs)

/-- TasksConsumer.handle_task_create: strips the title, rejects an empty
one, then create_task decides between task_created and an error. -/
def handle_task_create (s : Store) (slug : String) (uid : Nat) (d : MsgData) :
    Store × List OutMsg :=
  let title := (d.title.getD "").trim
  if title == "" then (s, [send_error "Missing task title" none])
  else
    match create_task s slug uid title with
    | (s2, some r) => (s2, [OutMsg.task_created r])
    | (s2, none) => (s2, [send_error "Failed to create task" none])

/-- TasksConsumer.handle_task_update. -/
def handle_task_update (s : Store) (slug : String) (uid : Nat) (d : MsgData) :
    Store × List OutMsg :=
  match truthyNat d.task_id with
  | none => (s, [send_error "Missing task_id" none])
  | some tid =>
    match update_task s slug uid tid d.updates with
    | (s2, some r) => (s2, [OutMsg.task_updated r])
    | (s2, none) => (s2, [send_error "Failed to update task" none])

/-- TasksConsumer.handle_task_delete. -/
def handle_task_delete (s : Store) (slug : String) (d : MsgData) :
    Store × List OutMsg :=
  match truthyNat d.task_id with
  | none => (s, [send_error "Missing task_id" none])
  | some tid =>
    match delete_task s slug tid with
    | (s2, some t) => (s2, [OutMsg.task_deleted t])
    | (s2, none) => (s2, [send_error "Failed to delete task" none])

/-- What one receive call produced: the new store, the frames sent back to
this client, the group publishes fired by signals, and whether the
connection was closed. -/
structure RecvOut where
  store : Store
  sends : List OutMsg
  pubs : List Publish
  closed : Bool
deriving DecidableEq, Repr

/-- BaseConsumer.receive for a session already joined (slug, uid known):
no text payload returns silently; a JSON parse failure and a non-object
frame are answered with error envelopes from inside the try/except; an
object dispatches on 'handle_' ++ type via hasattr, answering unknown
types with an error envelope whose details is the type (dropped by
send_error when falsy). No branch closes the connection. -/
def receive (k : ConsumerKind) (s : Store) (slug : String) (uid : Nat)
    (f : Frame) : RecvOut :=
  match f with
  | .textNone => ⟨s, [], [], false⟩
  | .invalidJson => ⟨s, [send_error "Invalid JSON format" none], [], false⟩
  | .nonObject => ⟨s, [send_error "Internal server error" none], [], false⟩
  | .obj d =>
    match d.msgType with
    | none => ⟨s, [send_error "Unknown message type" none], [], false⟩
    | some t =>
      if hasHandler k t then
        match k with
        | .general => ⟨s, [OutMsg.pong], [], false⟩
        | .voting =>
          if t == "vote_add" then
            let (s2, outs, pubs) := handle_vote_add s slug uid d
            ⟨s2, outs, pubs, false⟩
          else
            let (s2, outs, pubs) := handle_vote_remove s slug uid d
            ⟨s2, outs, pubs, false⟩
        | .tasks =>
          if t == "task_create" then
            let (s2, outs) := handle_task_create s slug uid d
            ⟨s2, outs, [], false⟩
          else if t == "task_update" then
            let (s2, outs) := handle_task_update s slug uid d
            ⟨s2, outs, [], false⟩
          else
            let (s2, outs) := handle_task_delete s slug d
            ⟨s2, outs, [], false⟩
      else ⟨s, [send_error "Unknown message type" (some t)], [], false⟩

/-- Store updates that leave the timeslot table alone do not change
timeslot lookups. -/
theorem findTimeslot_set_votes (s : Store) (v : List Vote) (tid : Nat) (slug : String) :
    findTimeslot { s with votes := v } tid slug = findTimeslot s tid slug := rfl

/-- Store updates that leave the event table alone do not change event
lookups. -/
theorem findEvent_set_votes (s : Store) (v : List Vote) (slug : String) :
    findEvent { s with votes := v } slug = findEvent s slug := rfl

/-- Example token validator: only the token tok authenticates, as user 1. -/
def exAuth : String → Option Nat := fun t => if t == "tok" then some 1 else none

/-- A draft event created by user 7. -/
def draftEvent : Event := ⟨"retro", "Retro", EventStatus.draft, 7⟩

/-- A timeslot of the draft event whose datetime is already past. -/
def pastSlot : TimeSlot := ⟨1, "retro", 0⟩

/-- Store with the draft event, its past timeslot, and users 1 and 7. -/
def exStore : Store := ⟨[draftEvent], [pastSlot], [], [], [1, 7]⟩

/-- A locked event created by user 7. -/
def lockedEvent : Event := ⟨"party", "Party", EventStatus.locked, 7⟩

/-- A future timeslot of the locked event. -/
def lockedSlot : TimeSlot := ⟨2, "party", 100⟩

/-- Store with the locked event and its timeslot. -/
def lockedStore : Store := ⟨[lockedEvent], [lockedSlot], [], [], [1, 7]⟩

/-- An existing task of the draft event. -/
def exTask : Task := ⟨5, "retro", "Order pizza", "todo", none⟩

/-- Store with the draft event and one task. -/
def taskStore : Store := ⟨[draftEvent], [pastSlot], [], [exTask], [1, 7]⟩

/-- Claim C1 counterexample: at a concrete store whose one timeslot has
datetime 0 while now is 5, the socket add_vote still creates the Vote row
and fires the vote_update broadcast, so a vote-add over the voting socket
for a past timeslot is not rejected. -/
theorem c1_counterexample :
    pastSlot.datetime ≤ 5 ∧
    (add_vote exStore "retro" 1 1).2.1 = some ⟨1, 1, 1⟩ ∧
    (add_vote exStore "retro" 1 1).1.votes = [⟨1, 1⟩] ∧
    (add_vote exStore "retro" 1 1).2.2 = vote_added_signal "retro" ∧
    (add_vote exStore "retro" 1 1).2.2 ≠ [] := by
  decide

/-- Claim C1 (amended): only the HTTP path's CanVoteOnTimeslot rejects a
timeslot with datetime ≤ now; the socket add_vote checks only the event
status and duplicate votes, so for a past timeslot of a draft event with
no prior vote it creates the Vote row and publishes the vote_update
envelope. -/
theorem c1_http_checks_past_socket_does_not (s : Store) (now : Int) (uid : Nat)
    (ts : TimeSlot) (ev : Event) (isPost : Bool) (slug : String)
    (hpast : ts.datetime ≤ now)
    (hts : findTimeslot s ts.id slug = some ts)
    (hev : findEvent s ts.eventSlug = some ev)
    (hdraft : ev.status = EventStatus.draft)
    (hnew : voteExists s uid ts.id = false) :
    canVoteOnTimeslot s now uid ts ev isPost = false ∧
    (add_vote s slug uid ts.id).2.1.isSome = true ∧
    (add_vote s slug uid ts.id).1.votes = s.votes ++ [⟨uid, ts.id⟩] ∧
    (add_vote s slug uid ts.id).2.2 = vote_added_signal slug := by
  refine ⟨?_, ?_, ?_, ?_⟩
  · simp [canVoteOnTimeslot, hpast]
  all_goals simp [add_vote, hts, hev, hdraft, hnew]

/-- Claim C1 witness: instantiation of the amended theorem at the
concrete past-timeslot store. -/
theorem c1_witness :
    canVoteOnTimeslot exStore 5 1 pastSlot draftEvent true = false ∧
    (add_vote exStore "retro" 1 pastSlot.id).2.1.isSome = true ∧
    (add_vote exStore "retro" 1 pastSlot.id).1.votes = exStore.votes ++ [⟨1, pastSlot.id⟩] ∧
    (add_vote exStore "retro" 1 pastSlot.id).2.2 = vote_added_signal "retro" :=
  c1_http_checks_past_socket_does_not exStore 5 1 pastSlot draftEvent true "retro"
    (by decide) (by decide) (by decide) (by decide) (by decide)

/-- Claim C2 counterexample: user 1 is neither the creator of the draft
event nor a voter on it, so the HTTP task-creation permission denies them,
yet the socket create_task succeeds for the same user and event. -/
theorem c2_counterexample :
    isEventCreatorForTaskCreation exStore 1 "retro" = false ∧
    (create_task exStore "retro" 1 "Order pizza").2 = some ⟨1, "Order pizza", "todo", 1⟩ ∧
    (create_task exStore "retro" 1 "Order pizza").1.tasks ≠ [] := by
  decide

/-- Claim C2 (amended): the socket task-create path performs no
authorization or event-state re-validation at all: whenever an event with
the given slug exists, create_task creates the task, for any acting user
and regardless of the event's status, including users and states the HTTP
IsEventCreatorForTaskCreation / CanModifyTask checks would deny. -/
theorem c2_socket_task_create_unchecked (s : Store) (slug : String) (uid : Nat)
    (title : String) (ev : Event) (hev : findEvent s slug = some ev) :
    (create_task s slug uid title).2 = some ⟨nextTaskId s, title, "todo", uid⟩ ∧
    (create_task s slug uid title).1.tasks
      = s.tasks ++ [⟨nextTaskId s, slug, title, "todo", none⟩] := by
  simp [create_task, hev]

/-- Claim C2 witness: instantiation of the amended theorem on the locked
event for a non-member user. -/
theorem c2_witness :
    (create_task lockedStore "party" 1 "Cleanup").2
      = some ⟨nextTaskId lockedStore, "Cleanup", "todo", 1⟩ ∧
    (create_task lockedStore "party" 1 "Cleanup").1.tasks
      = lockedStore.tasks ++ [⟨nextTaskId lockedStore, "party", "Cleanup", "todo", none⟩] :=
  c2_socket_task_create_unchecked lockedStore "party" 1 "Cleanup" lockedEvent (by decide)

/-- Claim C3: a connection attempt to the voting room of an event whose
status is locked is closed with code 4003 at handshake time, with nothing
sent, so the session is never accepted into the voting room. -/
theorem c3_voting_room_locked_denied_at_handshake (s : Store) (tok : String)
    (auth : String → Option Nat) (uid : Nat) (slug : String) (ev : Event)
    (hauth : auth tok = some uid)
    (hev : findEvent s slug = some ev)
    (hlocked : ev.status = EventStatus.locked) :
    connect ConsumerKind.voting s true (some tok) auth (some slug)
      = (ConnectOutcome.closed 4003, []) := by
  simp [connect, hauth, check_event_access, hev, hlocked]

/-- Claim C3 witness: the concrete locked event's voting room handshake
closes with 4003. -/
theorem c3_witness :
    connect ConsumerKind.voting lockedStore true (some "tok") exAuth (some "party")
      = (ConnectOutcome.closed 4003, []) :=
  c3_voting_room_locked_denied_at_handshake lockedStore "tok" exAuth 1 "party" lockedEvent
    (by decide) (by decide) (by decide)

/-- Claim C4 counterexample: when the concrete event locks, the group
messages with handler kind event_locked go only to the voting room (the
general room's message has handler kind event_update), and the broadcast
also reaches the tasks room, so it is not true that one event_locked-kind
envelope goes to the general room and none to any third room. -/
theorem c4_counterexample :
    ((event_updated_signal lockedEvent false).filter
        (fun p => p.handlerType == "event_locked")).map Publish.room
      = ["event_party_voting"] ∧
    (event_updated_signal lockedEvent false).map Publish.room
      = ["event_party", "event_party_voting", "event_party_tasks"] := by
  decide

/-- Claim C4 (amended): an update that leaves the event locked publishes
exactly one envelope (inner type event_update, action locked) to each of
the general, voting and tasks rooms; the group handler kind is
event_locked for the voting room and event_update for the other two
(assuming the slug itself does not contain the string voting); and a
subsequent vote-add on that event is rejected on the socket path (no vote,
no publish) and denied by the HTTP permission. -/
theorem c4_lock_broadcast_three_rooms (ev : Event) (s : Store) (uid tid : Nat)
    (ts : TimeSlot) (now : Int) (isPost : Bool)
    (hlock : ev.status = EventStatus.locked)
    (hg : containsVoting (generalRoom ev.slug) = false)
    (hv : containsVoting (votingRoom ev.slug) = true)
    (htk : containsVoting (tasksRoom ev.slug) = false)
    (hts : findTimeslot s tid ev.slug = some ts)
    (hev : findEvent s ts.eventSlug = some ev) :
    event_updated_signal ev false =
      [⟨generalRoom ev.slug, "event_update", "event_update", "locked"⟩,
       ⟨votingRoom ev.slug, "event_locked", "event_update", "locked"⟩,
       ⟨tasksRoom ev.slug, "event_update", "event_update", "locked"⟩] ∧
    add_vote s ev.slug uid tid = (s, none, []) ∧
    canVoteOnTimeslot s now uid ts ev isPost = false := by
  refine ⟨?_, ?_, ?_⟩
  · simp [event_updated_signal, hlock, hg, hv, htk]
  · simp [add_vote, hts, hev, hlock]
  · simp only [canVoteOnTimeslot, hlock]
    split <;> simp

/-- Claim C4 witness: instantiation of the amended theorem at the
concrete locked event. -/
theorem c4_witness :
    event_updated_signal lockedEvent false =
      [⟨generalRoom "party", "event_update", "event_update", "locked"⟩,
       ⟨votingRoom "party", "event_locked", "event_update", "locked"⟩,
       ⟨tasksRoom "party", "event_update", "event_update", "locked"⟩] ∧
    add_vote lockedStore "party" 1 2 = (lockedStore, none, []) ∧
    canVoteOnTimeslot lockedStore 5 1 lockedSlot lockedEvent true = false :=
  c4_lock_broadcast_three_rooms lockedEvent lockedStore 1 2 lockedSlot 5 true
    (by decide) (by decide) (by decide) (by decide) (by decide) (by decide)

/-- Claim C5: a second immediate vote-add for the same user and timeslot
over the voting socket is rejected as the existing-vote branch of
get_or_create (it leaves the store unchanged, returns no payload and
publishes nothing), the vote count increments exactly once, and the only
vote_update publishes of the whole sequence are those of the single
vote_added_signal firing of the first call; at the protocol level the
second handle_vote_add answers with the failure error envelope. -/
theorem c5_vote_add_idempotent (s : Store) (slug : String) (uid tid : Nat)
    (ts : TimeSlot) (ev : Event) (d : MsgData)
    (hts : findTimeslot s tid slug = some ts)
    (hev : findEvent s ts.eventSlug = some ev)
    (hdraft : ev.status = EventStatus.draft)
    (hnew : voteExists s uid tid = false)
    (hd : d.timeslot_id = some tid)
    (htid : tid ≠ 0) :
    (add_vote s slug uid tid).2.1.isSome = true ∧
    add_vote (add_vote s slug uid tid).1 slug uid tid
      = ((add_vote s slug uid tid).1, none, []) ∧
    voteCount (add_vote s slug uid tid).1 tid = voteCount s tid + 1 ∧
    (add_vote s slug uid tid).2.2 = vote_added_signal slug ∧
    (handle_vote_add (add_vote s slug uid tid).1 slug uid d).2.1
      = [send_error "Failed to add vote" none] := by
  have h1 : add_vote s slug uid tid =
      ({ s with votes := s.votes ++ [⟨uid, tid⟩] },
       some ⟨tid, uid, voteCount { s with votes := s.votes ++ [⟨uid, tid⟩] } tid⟩,
       vote_added_signal slug) := by
    simp [add_vote, hts, hev, hdraft, hnew]
  have hexists : voteExists { s with votes := s.votes ++ [⟨uid, tid⟩] } uid tid = true := by
    simp [voteExists]
  have h2 : add_vote { s with votes := s.votes ++ [⟨uid, tid⟩] } slug uid tid
      = ({ s with votes := s.votes ++ [⟨uid, tid⟩] }, none, []) := by
    simp [add_vote, findTimeslot_set_votes, findEvent_set_votes, hts, hev, hdraft, hexists]
  refine ⟨?_, ?_, ?_, ?_, ?_⟩
  · rw [h1]; rfl
  · rw [h1]; exact h2
  · rw [h1]; simp [voteCount, List.filter_append]
  · rw [h1]
  · have htid' : (tid == 0) = false := by simpa using htid
    rw [h1]
    simp [handle_vote_add, hd, truthyNat, htid', h2]

/-- Claim C5 witness: instantiation of the idempotence theorem at the
concrete draft-event store. -/
theorem c5_witness :
    (add_vote exStore "retro" 1 1).2.1.isSome = true ∧
    add_vote (add_vote exStore "retro" 1 1).1 "retro" 1 1
      = ((add_vote exStore "retro" 1 1).1, none, []) ∧
    voteCount (add_vote exStore "retro" 1 1).1 1 = voteCount exStore 1 + 1 ∧
    (add_vote exStore "retro" 1 1).2.2 = vote_added_signal "retro" ∧
    (handle_vote_add (add_vote exStore "retro" 1 1).1 "retro" 1 { timeslot_id := some 1 }).2.1
      = [send_error "Failed to add vote" none] :=
  c5_vote_add_idempotent exStore "retro" 1 1 pastSlot draftEvent { timeslot_id := some 1 }
    (by decide) (by decide) (by decide) (by decide) (by decide) (by decide)

/-- Claim C6: the connect handshake closes with 4001 when the credential
is missing or fails validation, 4002 when those pass but the event slug
is missing, 4000 when an internal error occurs at the database-backed
access check, 4003 when the access policy denies, in that order with
early exit; and when everything passes the connection is accepted into
the consumer's room and the connection_established envelope carrying the
room name, user id and event slug is sent. -/
theorem c6_connect_close_codes (k : ConsumerKind) (s : Store) (dbOk : Bool)
    (token : Option String) (auth : String → Option Nat) (slugOpt : Option String) :
    (token = none → connect k s dbOk token auth slugOpt = (ConnectOutcome.closed 4001, [])) ∧
    (∀ t, token = some t → auth t = none →
      connect k s dbOk token auth slugOpt = (ConnectOutcome.closed 4001, [])) ∧
    (∀ t u, token = some t → auth t = some u → slugOpt = none →
      connect k s dbOk token auth slugOpt = (ConnectOutcome.closed 4002, [])) ∧
    (∀ t u sl, token = some t → auth t = some u → slugOpt = some sl → dbOk = false →
      connect k s dbOk token auth slugOpt = (ConnectOutcome.closed 4000, [])) ∧
    (∀ t u sl, token = some t → auth t = some u → slugOpt = some sl → dbOk = true →
      check_event_access k s sl = false →
      connect k s dbOk token auth slugOpt = (ConnectOutcome.closed 4003, [])) ∧
    (∀ t u sl, token = some t → auth t = some u → slugOpt = some sl → dbOk = true →
      check_event_access k s sl = true →
      connect k s dbOk token auth slugOpt =
        (ConnectOutcome.accepted (get_room_group_name k sl) u sl,
         [OutMsg.connection_established (get_room_group_name k sl) u sl])) := by
  refine ⟨?_, ?_, ?_, ?_, ?_, ?_⟩ <;> intros <;> subst_vars <;> simp [connect, *]

/-- Claim C6 witness: instantiation of the close-code theorem on the
missing-token case and on a fully successful general-room handshake. -/
theorem c6_witness :
    connect ConsumerKind.general exStore true none exAuth none
      = (ConnectOutcome.closed 4001, []) ∧
    connect ConsumerKind.general exStore true (some "tok") exAuth (some "retro")
      = (ConnectOutcome.accepted (get_room_group_name ConsumerKind.general "retro") 1 "retro",
         [OutMsg.connection_established (get_room_group_name ConsumerKind.general "retro") 1 "retro"]) := by
  constructor
  · exact (c6_connect_close_codes ConsumerKind.general exStore true none exAuth none).1 rfl
  · exact (c6_connect_close_codes ConsumerKind.general exStore true (some "tok") exAuth
      (some "retro")).2.2.2.2.2 "tok" 1 "retro" rfl (by decide) rfl rfl (by decide)

/-- Claim C7 counterexample: a JSON frame whose type field is the empty
string matches no handler and is answered with an error envelope, but the
envelope does not name the unknown type: send_error drops the falsy
details, so the details slot is empty. -/
theorem c7_counterexample :
    hasHandler ConsumerKind.voting "" = false ∧
    (receive ConsumerKind.voting exStore "retro" 1 (Frame.obj { msgType := some "" })).sends
      = [OutMsg.errorOut "Unknown message type" none] := by
  decide

/-- Claim C7 (amended): receive never closes the connection on any frame;
a frame that is not valid JSON is answered with the structured
invalid-JSON error envelope; and a JSON object whose type matches no
handler is answered with an unknown-message-type error envelope whose
details names the type exactly when the type string is truthy (non-empty)
— for an empty type the name is dropped. -/
theorem c7_receive_errors_answered (k : ConsumerKind) (s : Store)
    (slug : String) (uid : Nat) :
    (∀ f, (receive k s slug uid f).closed = false) ∧
    (receive k s slug uid Frame.invalidJson).sends
      = [OutMsg.errorOut "Invalid JSON format" none] ∧
    (∀ (d : MsgData) (t : String), d.msgType = some t → hasHandler k t = false →
      (receive k s slug uid (Frame.obj d)).sends
        = [OutMsg.errorOut "Unknown message type" (if t == "" then none else some t)]) := by
  refine ⟨?_, rfl, ?_⟩
  · intro f
    cases f with
    | textNone => rfl
    | invalidJson => rfl
    | nonObject => rfl
    | obj d =>
      rcases hmt : d.msgType with _ | t
      · simp [receive, hmt]
      · by_cases hh : hasHandler k t
        · cases k with
          | general => simp [receive, hmt, hh]
          | voting =>
            rcases hva : handle_vote_add s slug uid d with ⟨s2, outs, pubs⟩
            rcases hvr : handle_vote_remove s slug uid d with ⟨s3, outs3, pubs3⟩
            by_cases hta : (t == "vote_add") = true <;>
              simp [receive, hmt, hh, hta, hva, hvr]
          | tasks =>
            rcases htc : handle_task_create s slug uid d with ⟨s2, outs⟩
            rcases htu : handle_task_update s slug uid d with ⟨s3, outs3⟩
            rcases htd : handle_task_delete s slug d with ⟨s4, outs4⟩
            by_cases hta : (t == "task_create") = true
            · simp [receive, hmt, hh, hta, htc]
            · by_cases htb : (t == "task_update") = true <;>
                simp [receive, hmt, hh, hta, htb, htc, htu, htd]
        · simp [receive, hmt, hh]
  · intro d t hmt hh
    simp [receive, hmt, hh, send_error]

/-- Claim C7 witness: instantiation of the amended theorem on a frame
with the unknown non-empty type bogus. -/
theorem c7_witness :
    (receive ConsumerKind.voting exStore "retro" 1 (Frame.obj { msgType := some "bogus" })).sends
      = [OutMsg.errorOut "Unknown message type" (some "bogus")] := by
  have h := (c7_receive_errors_answered ConsumerKind.voting exStore "retro" 1).2.2
    { msgType := some "bogus" } "bogus" rfl (by decide)
  simpa using h

/-- Claim C8: receive invoked with no text payload returns with the store
untouched, nothing sent, nothing published and the connection open. -/
theorem c8_text_none_noop (k : ConsumerKind) (s : Store) (slug : String) (uid : Nat) :
    receive k s slug uid Frame.textNone = ⟨s, [], [], false⟩ := rfl

/-- Removing the same channel from the same room twice leaves the
registry as after the first removal. -/
theorem group_discard_idem (reg : Registry) (room ch : String) :
    group_discard (group_discard reg room ch) room ch = group_discard reg room ch := by
  induction reg with
  | nil => rfl
  | cons e rest ih =>
    simp only [group_discard, List.map_cons, List.map_map] at *
    by_cases h : (e.1 == room) = true
    · simpa [h, List.filter_filter] using ih
    · simpa [h] using ih

/-- Claim C9: disconnect performs no registry operation when no room was
joined or no channel layer is configured, and running disconnect a second
time for the same session changes nothing beyond the first run. -/
theorem c9_disconnect_safe_idempotent (reg : Registry) (layerOk : Bool) (room ch : String) :
    disconnect reg layerOk none ch = reg ∧
    disconnect reg false (some room) ch = reg ∧
    disconnect (disconnect reg layerOk (some room) ch) layerOk (some room) ch
      = disconnect reg layerOk (some room) ch := by
  refine ⟨rfl, rfl, ?_⟩
  cases layerOk with
  | false => rfl
  | true => simpa [disconnect] using group_discard_idem reg room ch

/-- applyAssigned never touches the status or title fields. -/
theorem applyAssigned_preserves (s : Store) (task t2 : Task)
    (a : Option (Option Nat)) (c : Bool)
    (h : applyAssigned s task a = some (t2, c)) :
    t2.status = task.status ∧ t2.title = task.title ∧
    t2.id = task.id ∧ t2.eventSlug = task.eventSlug := by
  rcases a with _ | _ | aid
  · simp [applyAssigned] at h
    simp [← h.1]
  · simp [applyAssigned] at h
    simp [← h.1]
  · simp only [applyAssigned] at h
    split at h
    · split at h
      · simp at h
        simp [← h.1]
      · simp at h
    · simp at h
      simp [← h.1]

/-- applyTitle never touches the status field. -/
theorem applyTitle_preserves_status (u : Updates) (task : Task) :
    (applyTitle u task).1.status = task.status := by
  rcases u with ⟨us, ua, ut⟩
  rcases ut with _ | t
  · rfl
  · by_cases h : (t.trim != "") = true <;> simp [applyTitle, h]

/-- An out-of-range status value makes applyStatus a no-op with no
recorded change. -/
theorem applyStatus_skips_bad (u : Updates) (task : Task) (v : String)
    (hv : u.status = some v)
    (hbad : (v == "todo" || v == "doing" || v == "done") = false) :
    applyStatus u task = (task, none) := by
  simp [applyStatus, hv, hbad]

/-- Claim C10: a socket task_update whose updates carry a status outside
todo/doing/done silently skips the status change: given the task exists
and the assignment step succeeds, update_task still saves the task (the
matched row is replaced by the result's task snapshot, whose status is
the old one), returns a success payload whose changes have no status
entry, and handle_task_update answers with the task_updated envelope
rather than any validation error. -/
theorem c10_invalid_status_ignored (s : Store) (slug : String) (uid tid : Nat)
    (u : Updates) (task0 task2 : Task) (chA : Bool) (v : String) (d : MsgData)
    (hfind : findTask s tid slug = some task0)
    (hv : u.status = some v)
    (hbad : (v == "todo" || v == "doing" || v == "done") = false)
    (hA : applyAssigned s task0 u.assigned_to_id = some (task2, chA))
    (hd1 : d.task_id = some tid)
    (htid : tid ≠ 0)
    (hd2 : d.updates = u) :
    ∃ r, update_task s slug uid tid u = (saveTask s tid slug r.task, some r) ∧
      r.changes.statusChange = none ∧
      r.task.status = task0.status ∧
      (handle_task_update s slug uid d).2 = [OutMsg.task_updated r] := by
  have hpres := applyAssigned_preserves s task0 task2 u.assigned_to_id chA hA
  have hupd : update_task s slug uid tid u
      = (saveTask s tid slug (applyTitle u task2).1,
         some ⟨(applyTitle u task2).1, ⟨none, chA, (applyTitle u task2).2⟩, uid⟩) := by
    simp [update_task, hfind, applyStatus_skips_bad u task0 v hv hbad, hA]
  refine ⟨⟨(applyTitle u task2).1, ⟨none, chA, (applyTitle u task2).2⟩, uid⟩, hupd, rfl, ?_, ?_⟩
  · rw [applyTitle_preserves_status]
    exact hpres.1
  · have htid' : (tid == 0) = false := by simpa using htid
    simp [handle_task_update, hd1, hd2, truthyNat, htid', hupd]

/-- Claim C10 witness: instantiation at the concrete store whose one task
receives a task_update carrying the out-of-range status blocked. -/
theorem c10_witness :
    ∃ r, update_task taskStore "retro" 1 5 { status := some "blocked" }
        = (saveTask taskStore 5 "retro" r.task, some r) ∧
      r.changes.statusChange = none ∧
      r.task.status = exTask.status ∧
      (handle_task_update taskStore "retro" 1
          { msgType := some "task_update", task_id := some 5,
            updates := { status := some "blocked" } }).2
        = [OutMsg.task_updated r] :=
  c10_invalid_status_ignored taskStore "retro" 1 5 { status := some "blocked" }
    exTask exTask false "blocked"
    { msgType := some "task_update", task_id := some 5,
      updates := { status := some "blocked" } }
    (by decide) rfl (by decide) (by decide) rfl (by decide) rfl

end GatherHub
